import Mathlib

/-!
Shallow embedding of `openai-client-smart-failover`:
- `src/javascript/clientLoadBalancing/src/roundRobinThrottlingStrategy.ts`
  (throttling detection and the round-robin redirect strategy), and
- `src/javascript/clientLoadBalancing/src/mockRetry.ts`
  (the retry-policy orchestration loop `mockRetryPolicy`).

JavaScript strings are Lean `String`s, JavaScript numbers appearing in these
files are integers and are modelled as `Int` (`none` of an `Option Int` stands
for `undefined`/`NaN` where the source distinguishes them by `Number.isNaN` /
`Number.isFinite` checks). Effectful primitives of the JavaScript runtime that
the source calls (`Date.parse`, `Date.now`, `new URL`, the transport `next`,
the abort signal) are passed in as explicit function arguments.
-/

namespace SmartFailover

/-- Case-insensitive header map, after `createHttpHeaders` from
`@azure/core-rest-pipeline`: keys are normalised to lower case on `set`, and a
later `set` of the same (normalised) name overwrites the earlier one. -/
structure HttpHeaders where
  entries : List (String × String)
deriving DecidableEq

/-- `name.toLowerCase()` as the header map applies it, written as a
structural recursion over the character list so that it evaluates by kernel
reduction. -/
def lowerName (s : String) : String := ⟨s.data.map Char.toLower⟩

/-- `HttpHeadersImpl.set`: normalises the name to lower case and overwrites. -/
def HttpHeaders.set (h : HttpHeaders) (name value : String) : HttpHeaders :=
  ⟨h.entries.filter (fun p => p.1 ≠ lowerName name) ++ [(lowerName name, value)]⟩

/-- `HttpHeadersImpl.get`: looks the lower-cased name up; `none` is the
JavaScript `undefined` returned for an absent header. -/
def HttpHeaders.get (h : HttpHeaders) (name : String) : Option String :=
  (h.entries.find? (fun p => p.1 = lowerName name)).map Prod.snd

/-- `createHttpHeaders(rawHttpHeaders)`: sets each given pair in order. -/
def createHttpHeaders (raw : List (String × String)) : HttpHeaders :=
  raw.foldl (fun h p => h.set p.1 p.2) ⟨[]⟩

/-- The value of a non-empty all-decimal-digit character list, `none`
otherwise. -/
def decNat? (cs : List Char) : Option Nat :=
  if cs = [] then none
  else if cs.all (fun c => c.isDigit) then
    some (cs.foldl (fun n c => n * 10 + (c.toNat - 48)) 0)
  else none

/-- Models `Number(s)` of JavaScript restricted to the strings this
repository's headers carry: an optional leading minus followed by decimal
digits. Every other string is modelled as NaN (`none`). -/
def jsNumber (s : String) : Option Int :=
  match s.data with
  | '-' :: rest => (decNat? rest).map (fun n => -(n : Int))
  | cs => (decNat? cs).map (fun n => (n : Int))

/-- `PipelineResponse` as the strategy and policy consume it: status, headers,
body, and `response.request.url` (the response carries a reference to the
request it answered, whose `url` field is what the strategy reads). -/
structure PipelineResponse where
  status : Int
  headers : HttpHeaders
  requestUrl : String
  bodyAsText : Option String := none
deriving DecidableEq

/-- `const RetryAfterHeader = "Retry-After"`. -/
def RetryAfterHeader : String := "Retry-After"

/-- `const AllRetryAfterHeaders = ["retry-after-ms", "x-ms-retry-after-ms",
RetryAfterHeader]`. -/
def AllRetryAfterHeaders : List String :=
  ["retry-after-ms", "x-ms-retry-after-ms", RetryAfterHeader]

/-- `parseHeaderValueAsNumber(response, headerName)`: returns `undefined` when
the header is absent or its value is falsy (the empty string), or when
`Number(value)` is NaN; otherwise the parsed number. -/
def parseHeaderValueAsNumber (response : PipelineResponse) (headerName : String) :
    Option Int :=
  match response.headers.get headerName with
  | none => none
  | some value => if value = "" then none else jsNumber value

/-- The `for (const header of AllRetryAfterHeaders)` loop of
`getRetryAfterInMs`: the first header whose value parses as a number wins
(`retryAfterValue === 0 || retryAfterValue` accepts every non-NaN number),
and only `Retry-After` is multiplied by 1000. -/
def retryAfterFromHeaders (response : PipelineResponse) :
    List String → Option Int
  | [] => none
  | header :: rest =>
    match parseHeaderValueAsNumber response header with
    | some retryAfterValue =>
      some (retryAfterValue * (if header = RetryAfterHeader then 1000 else 1))
    | none => retryAfterFromHeaders response rest

/-- `getRetryAfterInMs(response)`. `dateParse` stands for the runtime's
`Date.parse` (`none` for NaN) and `now` for `Date.now()`; in this integer
model `diff = date - now` is always finite once the date parses, and a NaN
date makes the diff NaN, hence `undefined`. -/
def getRetryAfterInMs (dateParse : String → Option Int) (now : Int)
    (response : Option PipelineResponse) : Option Int :=
  match response with
  | none => none
  | some response =>
    if response.status ≠ 429 ∧ response.status ≠ 503 then none
    else
      match retryAfterFromHeaders response AllRetryAfterHeaders with
      | some v => some v
      | none =>
        match response.headers.get RetryAfterHeader with
        | none => none
        | some retryAfterHeader =>
          if retryAfterHeader = "" then none
          else
            match dateParse retryAfterHeader with
            | none => none
            | some date => some (max 0 (date - now))

/-- `isThrottlingRetryResponse(response) = Number.isFinite(getRetryAfterInMs(
response))`: in this model every represented number is finite, so the check is
exactly "a value was produced". -/
def isThrottlingRetryResponse (dateParse : String → Option Int) (now : Int)
    (response : Option PipelineResponse) : Bool :=
  (getRetryAfterInMs dateParse now response).isSome

/-- The two components of a WHATWG `URL` object that
`roundRobinThrottlingStrategy` reads after `new URL(response.request.url)`:
`pathname` and `search` (the query string, `?` included when non-empty). -/
structure JsUrl where
  pathname : String
  search : String
deriving DecidableEq

/-- A JavaScript error as this code inspects it: its `name`, its `message`,
and — for `RestError` — the `response` it may carry. -/
structure JsError where
  name : String
  message : String := ""
  response : Option PipelineResponse := none
deriving DecidableEq

/-- The argument object of `RetryStrategy.retry`: `{ retryCount, response,
responseError }`. -/
structure RetryInfo where
  retryCount : Nat
  response : Option PipelineResponse
  responseError : Option JsError

/-- The `RetryModifiers` a strategy returns: every field optional, absent
modelled as `none` (`skipStrategy` absent and `false` are indistinguishable to
the policy's truthiness test, so it is a plain `Bool`). -/
structure RetryModifiers where
  skipStrategy : Bool := false
  errorToThrow : Option JsError := none
  retryAfterInMs : Option Int := none
  redirectTo : Option String := none
deriving DecidableEq

/-- A `RetryStrategy`: a name and a `retry` decision function. -/
structure RetryStrategy where
  name : String
  retry : RetryInfo → RetryModifiers

/-- `roundRobinThrottlingStrategy(openAiHosts)`. `parseUrl` stands for the
runtime's `new URL(...)` constructor restricted to the two fields read.
When `response` is `undefined` the throttling test is false and the strategy
skips, so `response.request.url` is never dereferenced on that path.
`openAiHosts[retryCount % openAiHosts.length + 1]` is `undefined` when the
index is out of bounds, and JavaScript string concatenation renders that
`undefined` as the text `"undefined"`. -/
def roundRobinThrottlingStrategy (parseUrl : String → JsUrl)
    (dateParse : String → Option Int) (now : Int)
    (openAiHosts : List String) : RetryStrategy where
  name := "throttlingRetryStrategy"
  retry := fun info =>
    match info.response with
    | none => { skipStrategy := true }
    | some response =>
      if ¬ isThrottlingRetryResponse dateParse now (some response) then
        { skipStrategy := true }
      else
        let currentUrl := parseUrl response.requestUrl
        let backupEndpoint :=
          openAiHosts.get? (info.retryCount % openAiHosts.length + 1)
        { redirectTo :=
            some (backupEndpoint.getD "undefined"
              ++ currentUrl.pathname ++ currentUrl.search) }

/-! ### The orchestration loop of `mockRetryPolicy` (mockRetry.ts) -/

/-- What one `await next(request)` transport call produces: a response
(status, headers, body — its `request` field aliases the in-flight request),
or a thrown error. A thrown falsy value (`!e`) is not representable here. -/
inductive TransportOutcome where
  | success (status : Int) (headers : HttpHeaders) (bodyAsText : Option String)
  | failure (e : JsError)

/-- The runtime collaborators of one `sendRequest` execution: `next` gives the
outcome of the k-th transport call (0-based); `abortedAfterAttempt k` is the
value of `request.abortSignal?.aborted` polled right after attempt `k`
completes; `abortedDuringDelay k` says whether the signal fires while
`delay(...)` of attempt `k`'s wait verdict is pending. -/
structure PolicyEnv where
  next : Nat → TransportOutcome
  abortedAfterAttempt : Nat → Bool
  abortedDuringDelay : Nat → Bool

/-- How one `sendRequest` call ends: a returned response, a thrown error
(strategy `errorToThrow`, a rethrown `responseError` or non-`RestError`, an
`AbortError`, or the internal max-retries `Error`), or fuel exhaustion —
an artifact of the bounded model that enough fuel never reaches. -/
inductive PolicyResult where
  | ok (r : PipelineResponse)
  | thrown (e : JsError)
  | diverged
deriving DecidableEq

/-- `new AbortError()` of `@azure/abort-controller`. -/
def abortError : JsError := { name := "AbortError" }

/-- `new Error("Maximum retries reached with no response or error to throw")`. -/
def maxRetriesNoOutcomeError : JsError :=
  { name := "Error"
    message := "Maximum retries reached with no response or error to throw" }

/-- The first actionable verdict of the `strategiesLoop`. -/
inductive StrategyAction where
  | throwErr (e : JsError)
  | wait (ms : Int)
  | redirect (url : String)
  | fallThrough
deriving DecidableEq

/-- The `strategiesLoop`: each strategy is asked in order; `skipStrategy`
continues, then `errorToThrow`, `retryAfterInMs` (the test
`retryAfterInMs || retryAfterInMs === 0` accepts every non-NaN number) and a
truthy (non-empty) `redirectTo` are honoured in that order; a strategy whose
modifiers have none of them falls through to the next strategy. Also returns
how many strategies were invoked. -/
def evalStrategies (info : RetryInfo) :
    List RetryStrategy → StrategyAction × Nat
  | [] => (.fallThrough, 0)
  | strategy :: rest =>
    let modifiers := strategy.retry info
    if modifiers.skipStrategy then
      let (a, n) := evalStrategies info rest
      (a, n + 1)
    else
      match modifiers.errorToThrow with
      | some e => (.throwErr e, 1)
      | none =>
        match modifiers.retryAfterInMs with
        | some ms => (.wait ms, 1)
        | none =>
          match modifiers.redirectTo with
          | some url =>
            if url ≠ "" then (.redirect url, 1)
            else
              let (a, n) := evalStrategies info rest
              (a, n + 1)
          | none =>
            let (a, n) := evalStrategies info rest
            (a, n + 1)

/-- The synthesized response of the first attempt (`retryCount === 0`):
status 429 with a `retry-after-ms: 1000` header; its `request` field aliases
the in-flight request, whose `url` is the current one. -/
def mockResponse (url : String) : PipelineResponse where
  status := 429
  headers := createHttpHeaders [("Content-Type", "text/plain"),
    ("retry-after-ms", "1000")]
  requestUrl := url
  bodyAsText := some "Too Many Requests"

/-- The `retryRequest: while (true)` loop of `mockRetryPolicy.sendRequest`,
one constructor case per iteration. Arguments after `maxRetries`: fuel, then
the mutable loop state — `retryCount`, `request.url`, and two ghost counters:
transport calls made and strategies invoked so far. Each iteration: attempt
(mocked 429 at `retryCount` 0, else `next`; a caught error that is not a
`RestError` is immediately rethrown), then the abort-signal poll, then the
max-retries check, then the strategies loop and its verdict. -/
def runLoop (env : PolicyEnv) (strategies : List RetryStrategy)
    (maxRetries : Nat) :
    Nat → Nat → String → Nat → Nat → PolicyResult × Nat × Nat
  | 0, _, _, tCalls, sCalls => (.diverged, tCalls, sCalls)
  | fuel + 1, retryCount, url, tCalls, sCalls =>
    let attempt : (Option PipelineResponse × Option JsError × Nat) ⊕ JsError :=
      if retryCount = 0 then .inl (some (mockResponse url), none, tCalls)
      else
        match env.next tCalls with
        | .success status headers bodyAsText =>
          .inl (some ⟨status, headers, url, bodyAsText⟩, none, tCalls + 1)
        | .failure e =>
          if e.name ≠ "RestError" then .inr e
          else .inl (e.response, some e, tCalls + 1)
    match attempt with
    | .inr e => (.thrown e, tCalls + 1, sCalls)
    | .inl (response, responseError, tCalls') =>
      if env.abortedAfterAttempt retryCount then
        (.thrown abortError, tCalls', sCalls)
      else if maxRetries ≤ retryCount then
        match responseError with
        | some e => (.thrown e, tCalls', sCalls)
        | none =>
          match response with
          | some r => (.ok r, tCalls', sCalls)
          | none => (.thrown maxRetriesNoOutcomeError, tCalls', sCalls)
      else
        let info : RetryInfo := ⟨retryCount, response, responseError⟩
        match evalStrategies info strategies with
        | (.throwErr e, n) => (.thrown e, tCalls', sCalls + n)
        | (.wait _, n) =>
          if env.abortedDuringDelay retryCount then
            (.thrown abortError, tCalls', sCalls + n)
          else
            runLoop env strategies maxRetries fuel (retryCount + 1) url
              tCalls' (sCalls + n)
        | (.redirect newUrl, n) =>
          runLoop env strategies maxRetries fuel (retryCount + 1) newUrl
            tCalls' (sCalls + n)
        | (.fallThrough, n) =>
          match responseError with
          | some e => (.thrown e, tCalls', sCalls + n)
          | none =>
            match response with
            | some r => (.ok r, tCalls', sCalls + n)
            | none =>
              runLoop env strategies maxRetries fuel (retryCount + 1) url
                tCalls' (sCalls + n)

/-- `mockRetryPolicy(strategies, options).sendRequest(request, next)`:
`maxRetries` defaults to `DEFAULT_RETRY_POLICY_COUNT = 3`; `retryCount`
starts at `-1` and is incremented at the top of the loop, so the first
iteration runs with `retryCount = 0`. The loop terminates within
`maxRetries + 1` iterations, which is the fuel supplied. -/
def mockRetryPolicySend (env : PolicyEnv) (strategies : List RetryStrategy)
    (maxRetries : Option Nat) (requestUrl : String) :
    PolicyResult × Nat × Nat :=
  runLoop env strategies (maxRetries.getD 3) (maxRetries.getD 3 + 1) 0
    requestUrl 0 0

/-! ### Theorems -/

/-- If no header in the list parses as a number, the header loop of
`getRetryAfterInMs` produces nothing. -/
theorem retryAfterFromHeaders_eq_none (response : PipelineResponse)
    (l : List String)
    (h : ∀ name ∈ l, parseHeaderValueAsNumber response name = none) :
    retryAfterFromHeaders response l = none := by
  induction l with
  | nil => rfl
  | cons head tail ih =>
    simp only [retryAfterFromHeaders]
    rw [h head (by simp)]
    exact ih (fun n hn => h n (by simp [hn]))

/-- C1 — counterexample. A 429 response with no headers at all: none of
`retry-after-ms`, `x-ms-retry-after-ms`, `Retry-After` yields a wait value,
yet `isThrottlingRetryResponse` returns `false`, not `true` as the claim
states (`Number.isFinite(undefined)` is `false`). -/
theorem c1_counterexample :
    isThrottlingRetryResponse (fun _ => none) 0
      (some ⟨429, createHttpHeaders [], "https://a.example/chat", none⟩)
      = false ∧
    getRetryAfterInMs (fun _ => none) 0
      (some ⟨429, createHttpHeaders [], "https://a.example/chat", none⟩)
      = none :=
  ⟨rfl, rfl⟩

/-- C1 — amended. For every response whose status is 429 or 503 but none of
the headers `retry-after-ms`, `x-ms-retry-after-ms`, `Retry-After` yields a
valid wait value (numeric parses fail and any date parse of `Retry-After`
fails), `getRetryAfterInMs` returns absent and `isThrottlingRetryResponse`
returns `false` — the response is not classified as a throttling retry
response without a usable delay. -/
theorem c1_no_valid_header_not_throttled (dateParse : String → Option Int)
    (now : Int) (response : PipelineResponse)
    (hstatus : response.status = 429 ∨ response.status = 503)
    (hnum : ∀ name ∈ AllRetryAfterHeaders,
      parseHeaderValueAsNumber response name = none)
    (hdate : ∀ s, response.headers.get RetryAfterHeader = some s → s ≠ "" →
      dateParse s = none) :
    getRetryAfterInMs dateParse now (some response) = none ∧
    isThrottlingRetryResponse dateParse now (some response) = false := by
  have hmain : getRetryAfterInMs dateParse now (some response) = none := by
    simp only [getRetryAfterInMs]
    rw [retryAfterFromHeaders_eq_none response AllRetryAfterHeaders hnum]
    have hstatus' : ¬ (response.status ≠ 429 ∧ response.status ≠ 503) := by
      rcases hstatus with h | h <;> simp [h]
    simp only [if_neg hstatus']
    cases hget : response.headers.get RetryAfterHeader with
    | none => rfl
    | some s =>
      by_cases hs : s = ""
      · simp [hs]
      · simp [hs, hdate s hget hs]
  exact ⟨hmain, by simp [isThrottlingRetryResponse, hmain]⟩

/-- C1 — witness for the amended theorem at a concrete input: a 503 response
carrying only an unparseable `Retry-After`. -/
theorem c1_witness :
    getRetryAfterInMs (fun _ => none) 1700000000
      (some ⟨503, createHttpHeaders [("Retry-After", "soon")],
        "https://a.example/chat", none⟩) = none ∧
    isThrottlingRetryResponse (fun _ => none) 1700000000
      (some ⟨503, createHttpHeaders [("Retry-After", "soon")],
        "https://a.example/chat", none⟩) = false :=
  c1_no_valid_header_not_throttled (fun _ => none) 1700000000
    ⟨503, createHttpHeaders [("Retry-After", "soon")],
      "https://a.example/chat", none⟩
    (Or.inr rfl) (by decide) (by intro s hs _; rfl)

/-- C5 — for every response with a throttling status, the headers are checked
in the fixed order `retry-after-ms`, `x-ms-retry-after-ms`, `Retry-After`;
the first one parsing as a number wins; only `Retry-After` is multiplied by
1000; and in particular a response carrying both `retry-after-ms: 500` and
`Retry-After: 2` resolves to 500 ms. -/
theorem c5_header_precedence (dateParse : String → Option Int) (now : Int)
    (response : PipelineResponse)
    (hstatus : response.status = 429 ∨ response.status = 503) :
    (∀ v, parseHeaderValueAsNumber response "retry-after-ms" = some v →
      getRetryAfterInMs dateParse now (some response) = some v) ∧
    (parseHeaderValueAsNumber response "retry-after-ms" = none →
      ∀ v, parseHeaderValueAsNumber response "x-ms-retry-after-ms" = some v →
      getRetryAfterInMs dateParse now (some response) = some v) ∧
    (parseHeaderValueAsNumber response "retry-after-ms" = none →
      parseHeaderValueAsNumber response "x-ms-retry-after-ms" = none →
      ∀ v, parseHeaderValueAsNumber response "Retry-After" = some v →
      getRetryAfterInMs dateParse now (some response) = some (v * 1000)) ∧
    (response.headers.get "retry-after-ms" = some "500" →
      getRetryAfterInMs dateParse now (some response) = some 500) := by
  have hstatus' : ¬ (response.status ≠ 429 ∧ response.status ≠ 503) := by
    rcases hstatus with h | h <;> simp [h]
  refine ⟨fun v hv => ?_, fun h1 v hv => ?_, fun h1 h2 v hv => ?_, fun hget => ?_⟩
  · simp [getRetryAfterInMs, if_neg hstatus', AllRetryAfterHeaders,
      retryAfterFromHeaders, hv, RetryAfterHeader]
  · simp [getRetryAfterInMs, if_neg hstatus', AllRetryAfterHeaders,
      retryAfterFromHeaders, h1, hv, RetryAfterHeader]
  · simp [getRetryAfterInMs, if_neg hstatus', AllRetryAfterHeaders,
      retryAfterFromHeaders, h1, h2, hv, RetryAfterHeader]
  · have hv : parseHeaderValueAsNumber response "retry-after-ms" = some 500 := by
      simp [parseHeaderValueAsNumber, hget, jsNumber]
      rfl
    simp [getRetryAfterInMs, if_neg hstatus', AllRetryAfterHeaders,
      retryAfterFromHeaders, hv, RetryAfterHeader]

/-- C5 — witness: a 429 response with both `retry-after-ms: 500` and
`Retry-After: 2` resolves to 500 ms. -/
theorem c5_witness :
    getRetryAfterInMs (fun _ => none) 0
      (some ⟨429, createHttpHeaders
        [("retry-after-ms", "500"), ("Retry-After", "2")],
        "https://a.example/chat", none⟩) = some 500 :=
  (c5_header_precedence (fun _ => none) 0
    ⟨429, createHttpHeaders [("retry-after-ms", "500"), ("Retry-After", "2")],
      "https://a.example/chat", none⟩ (Or.inl rfl)).2.2.2 (by decide)

/-- C4 — a 429 response whose `retry-after-ms` header is `"0"` is classified
as throttled with a present wait of exactly 0 ms (not absent); and in the
orchestrator a strategy verdict of `Wait(0)` triggers the delay-and-retry
branch — the loop proceeds to the next attempt instead of falling through to
return the response. -/
theorem c4_zero_ms_valid (dateParse : String → Option Int) (now : Int)
    (response : PipelineResponse)
    (hstatus : response.status = 429)
    (hheader : response.headers.get "retry-after-ms" = some "0") :
    (getRetryAfterInMs dateParse now (some response) = some 0 ∧
     isThrottlingRetryResponse dateParse now (some response) = true) ∧
    (∀ (env : PolicyEnv) (strategies : List RetryStrategy)
       (maxRetries fuel t s n : Nat) (url : String),
      env.abortedAfterAttempt 0 = false →
      env.abortedDuringDelay 0 = false →
      0 < maxRetries →
      evalStrategies ⟨0, some (mockResponse url), none⟩ strategies
        = (.wait 0, n) →
      runLoop env strategies maxRetries (fuel + 1) 0 url t s =
        runLoop env strategies maxRetries fuel 1 url t (s + n)) := by
  have hstatus' : ¬ (response.status ≠ 429 ∧ response.status ≠ 503) := by
    simp [hstatus]
  have hv : parseHeaderValueAsNumber response "retry-after-ms" = some 0 := by
    simp [parseHeaderValueAsNumber, hheader, jsNumber, decNat?]
  have hms : getRetryAfterInMs dateParse now (some response) = some 0 := by
    simp [getRetryAfterInMs, if_neg hstatus', AllRetryAfterHeaders,
      retryAfterFromHeaders, hv, RetryAfterHeader]
  refine ⟨⟨hms, by simp [isThrottlingRetryResponse, hms]⟩, ?_⟩
  intro env strategies maxRetries fuel t s n url h1 h2 h3 h4
  simp only [runLoop]
  simp [h1, h2, h4, Nat.not_le.mpr h3]

/-- C4 — witness: the detector part at a concrete 429 response with
`retry-after-ms: 0`, and the orchestrator part with a strategy constantly
returning `Wait(0)` under `maxRetries = 3`. -/
theorem c4_witness :
    (getRetryAfterInMs (fun _ => none) 0
      (some ⟨429, createHttpHeaders [("retry-after-ms", "0")],
        "https://a.example/chat", none⟩) = some 0 ∧
     isThrottlingRetryResponse (fun _ => none) 0
      (some ⟨429, createHttpHeaders [("retry-after-ms", "0")],
        "https://a.example/chat", none⟩) = true) ∧
    runLoop ⟨fun _ => .success 200 ⟨[]⟩ none, fun _ => false, fun _ => false⟩
      [⟨"constWaitZero", fun _ => { retryAfterInMs := some 0 }⟩] 3 (2 + 1) 0
      "https://a.example/chat" 0 0 =
    runLoop ⟨fun _ => .success 200 ⟨[]⟩ none, fun _ => false, fun _ => false⟩
      [⟨"constWaitZero", fun _ => { retryAfterInMs := some 0 }⟩] 3 2 1
      "https://a.example/chat" 0 (0 + 1) :=
  ⟨(c4_zero_ms_valid (fun _ => none) 0
      ⟨429, createHttpHeaders [("retry-after-ms", "0")],
        "https://a.example/chat", none⟩ rfl (by decide)).1,
   (c4_zero_ms_valid (fun _ => none) 0
      ⟨429, createHttpHeaders [("retry-after-ms", "0")],
        "https://a.example/chat", none⟩ rfl (by decide)).2
     ⟨fun _ => .success 200 ⟨[]⟩ none, fun _ => false, fun _ => false⟩
     [⟨"constWaitZero", fun _ => { retryAfterInMs := some 0 }⟩] 3 2 0 0 1
     "https://a.example/chat" rfl rfl (by decide) rfl⟩

/-- C8 — once every numeric header parse has failed, a present, non-empty
`Retry-After` header is reinterpreted as a date: the wait is
`max(0, parsedDate - now)` — positive for a future date, exactly 0 for a past
date, never negative — and an unparseable date (NaN delta) makes the header
count as absent. -/
theorem c8_retry_after_date (dateParse : String → Option Int) (now : Int)
    (response : PipelineResponse)
    (hstatus : response.status = 429 ∨ response.status = 503)
    (hnum : ∀ name ∈ AllRetryAfterHeaders,
      parseHeaderValueAsNumber response name = none)
    (s : String) (hget : response.headers.get "Retry-After" = some s)
    (hne : s ≠ "") :
    (∀ d, dateParse s = some d →
      getRetryAfterInMs dateParse now (some response)
        = some (max 0 (d - now)) ∧
      (now < d →
        getRetryAfterInMs dateParse now (some response) = some (d - now) ∧
        0 < d - now) ∧
      (d ≤ now →
        getRetryAfterInMs dateParse now (some response) = some 0)) ∧
    (dateParse s = none →
      getRetryAfterInMs dateParse now (some response) = none) ∧
    (∀ v, getRetryAfterInMs dateParse now (some response) = some v →
      0 ≤ v) := by
  have hstatus' : ¬ (response.status ≠ 429 ∧ response.status ≠ 503) := by
    rcases hstatus with h | h <;> simp [h]
  have hchar : getRetryAfterInMs dateParse now (some response)
      = match dateParse s with
        | none => none
        | some date => some (max 0 (date - now)) := by
    simp only [getRetryAfterInMs]
    rw [retryAfterFromHeaders_eq_none response AllRetryAfterHeaders hnum]
    simp only [if_neg hstatus', RetryAfterHeader, hget, if_neg hne]
  refine ⟨fun d hd => ?_, fun hd => ?_, fun v hv => ?_⟩
  · rw [hchar, hd]
    refine ⟨rfl, fun hlt => ⟨?_, by omega⟩, fun hle => ?_⟩
    · show some (max 0 (d - now)) = some (d - now)
      rw [max_eq_right (by omega : (0 : Int) ≤ d - now)]
    · show some (max 0 (d - now)) = some 0
      rw [max_eq_left (by omega : d - now ≤ (0 : Int))]
  · rw [hchar, hd]
  · rw [hchar] at hv
    cases hds : dateParse s with
    | none => rw [hds] at hv; exact absurd hv (by simp)
    | some d =>
      rw [hds] at hv
      simp only [Option.some.injEq] at hv
      rw [← hv]
      exact le_max_left 0 (d - now)

/-- C8 — witness: a 429 response whose only wait header is
`Retry-After: futuredate`; with `Date.parse` giving 5000 and `Date.now()`
1000 the wait is `max 0 4000`, and a past date (parse 10) gives 0. -/
theorem c8_witness :
    getRetryAfterInMs (fun str => if str = "futuredate" then some 5000
        else none) 1000
      (some ⟨429, createHttpHeaders [("Retry-After", "futuredate")],
        "https://a.example/chat", none⟩) = some (5000 - 1000) ∧
    0 < (5000 : Int) - 1000 :=
  (c8_retry_after_date
    (fun str => if str = "futuredate" then some 5000 else none) 1000
    ⟨429, createHttpHeaders [("Retry-After", "futuredate")],
      "https://a.example/chat", none⟩
    (Or.inl rfl) (by decide) "futuredate" rfl (by decide)).1 5000 rfl
    |>.2.1 (by decide)

/-- C2 — counterexample. With endpoints `[A, B]` and a throttled response at
`retryCount = 1`, the index read is `1 % 2 + 1 = 2`, which is out of bounds:
the redirect target is `"undefined" + path + query`, not B's base URL as the
claim states. -/
theorem c2_counterexample :
    ((roundRobinThrottlingStrategy (fun _ => ⟨"/chat", "?x=1"⟩)
        (fun _ => none) 0 ["https://a.example", "https://b.example"]).retry
      ⟨1, some ⟨429, createHttpHeaders [("retry-after-ms", "0")],
        "https://a.example/chat?x=1", none⟩, none⟩).redirectTo
      = some "undefined/chat?x=1" ∧
    some "undefined/chat?x=1" ≠
      some ("https://b.example" ++ "/chat" ++ "?x=1") :=
  ⟨rfl, by decide⟩

/-- C2 — amended. For the rotation strategy configured with endpoints
`[A, B]`, it is on a throttled response at `retryCount` 0 (not 1) that the
redirect target is endpoint B's base URL with the original request's path and
query string unchanged — only the scheme+host part is replaced. -/
theorem c2_rotation_to_b (parseUrl : String → JsUrl)
    (dateParse : String → Option Int) (now : Int) (a b : String)
    (response : PipelineResponse) (responseError : Option JsError)
    (hthrottled : isThrottlingRetryResponse dateParse now (some response)
      = true) :
    ((roundRobinThrottlingStrategy parseUrl dateParse now [a, b]).retry
        ⟨0, some response, responseError⟩).redirectTo =
      some (b ++ (parseUrl response.requestUrl).pathname
        ++ (parseUrl response.requestUrl).search) := by
  simp [roundRobinThrottlingStrategy, hthrottled]

/-- C2 — witness for the amended theorem: endpoints `[A, B]`, a concrete
throttled 429 response, `retryCount` 0. -/
theorem c2_witness :
    ((roundRobinThrottlingStrategy (fun _ => ⟨"/chat", "?x=1"⟩)
        (fun _ => none) 0 ["https://a.example", "https://b.example"]).retry
      ⟨0, some ⟨429, createHttpHeaders [("retry-after-ms", "0")],
        "https://a.example/chat?x=1", none⟩, none⟩).redirectTo
      = some ("https://b.example" ++ "/chat" ++ "?x=1") :=
  c2_rotation_to_b (fun _ => ⟨"/chat", "?x=1"⟩) (fun _ => none) 0
    "https://a.example" "https://b.example"
    ⟨429, createHttpHeaders [("retry-after-ms", "0")],
      "https://a.example/chat?x=1", none⟩ none (by decide)

/-- C9 — for every non-empty endpoint list and every throttled response, the
rotation strategy reads index `retryCount % length + 1`, which is never 0, so
the first configured endpoint is never selected; and whenever
`retryCount % length = length - 1` that index equals `length` — out of
bounds — so the lookup is `undefined` and the redirect URL's base is the text
`"undefined"`. -/
theorem c9_rotation_never_first (parseUrl : String → JsUrl)
    (dateParse : String → Option Int) (now : Int) (openAiHosts : List String)
    (response : PipelineResponse) (responseError : Option JsError)
    (retryCount : Nat)
    (hlen : 1 ≤ openAiHosts.length)
    (hthrottled : isThrottlingRetryResponse dateParse now (some response)
      = true) :
    (∀ rc : Nat,
      ((roundRobinThrottlingStrategy parseUrl dateParse now
          openAiHosts).retry ⟨rc, some response, responseError⟩).redirectTo =
        some ((openAiHosts.get? (rc % openAiHosts.length + 1)).getD
            "undefined"
          ++ (parseUrl response.requestUrl).pathname
          ++ (parseUrl response.requestUrl).search) ∧
      rc % openAiHosts.length + 1 ≠ 0) ∧
    (retryCount % openAiHosts.length = openAiHosts.length - 1 →
      openAiHosts.get? (retryCount % openAiHosts.length + 1) = none ∧
      ((roundRobinThrottlingStrategy parseUrl dateParse now
          openAiHosts).retry
        ⟨retryCount, some response, responseError⟩).redirectTo =
        some ("undefined"
          ++ (parseUrl response.requestUrl).pathname
          ++ (parseUrl response.requestUrl).search)) := by
  have hval : ∀ rc : Nat,
      ((roundRobinThrottlingStrategy parseUrl dateParse now
          openAiHosts).retry ⟨rc, some response, responseError⟩).redirectTo =
        some ((openAiHosts.get? (rc % openAiHosts.length + 1)).getD
            "undefined"
          ++ (parseUrl response.requestUrl).pathname
          ++ (parseUrl response.requestUrl).search) := by
    intro rc
    simp [roundRobinThrottlingStrategy, hthrottled]
  refine ⟨fun rc => ⟨hval rc, by omega⟩, fun hmod => ?_⟩
  have hnone : openAiHosts.get? (retryCount % openAiHosts.length + 1)
      = none := by
    apply List.get?_eq_none.mpr
    omega
  exact ⟨hnone, by rw [hval retryCount, hnone]; rfl⟩

/-- C9 — witness: endpoints `[A, B]` (length 2) and `retryCount = 1`, where
`1 % 2 = 2 - 1`: the lookup is out of bounds and the redirect base is the
text `"undefined"`. -/
theorem c9_witness :
    (["https://a.example", "https://b.example"].get? (1 % 2 + 1) = none) ∧
    ((roundRobinThrottlingStrategy (fun _ => ⟨"/chat", "?x=1"⟩)
        (fun _ => none) 0 ["https://a.example", "https://b.example"]).retry
      ⟨1, some ⟨429, createHttpHeaders [("retry-after-ms", "0")],
        "https://a.example/chat?x=1", none⟩, none⟩).redirectTo
      = some ("undefined" ++ "/chat" ++ "?x=1") :=
  (c9_rotation_never_first (fun _ => ⟨"/chat", "?x=1"⟩) (fun _ => none) 0
    ["https://a.example", "https://b.example"]
    ⟨429, createHttpHeaders [("retry-after-ms", "0")],
      "https://a.example/chat?x=1", none⟩ none 1
    (by decide) (by decide)).2 (by decide)

/-- C3 — counterexample. With `maxRetries = 3` and a strategy that always
returns `Wait(10)`, the policy makes exactly 3 transport invocations, not 4:
the first attempt is the synthesized 429 of `mockRetryPolicy` and never calls
`next`. -/
theorem c3_counterexample :
    (mockRetryPolicySend
        ⟨fun _ => .success 200 (createHttpHeaders []) (some "ok"),
         fun _ => false, fun _ => false⟩
        [⟨"alwaysWait10", fun _ => { retryAfterInMs := some 10 }⟩]
        (some 3) "https://a.example/chat").2.1 = 3 ∧ (3 : Nat) ≠ 4 :=
  ⟨rfl, by decide⟩

/-- C3 — amended. With `maxRetries = 3` and a single strategy that always
returns `Wait(10)`, four attempts occur but only 3 invoke the transport (the
first attempt is the mock's synthesized 429); the Response of the last
transport invocation (0-based call index 2) is returned to the caller, and
the strategy is consulted exactly 3 times (never for the final attempt). -/
theorem c3_three_transport_calls (st : Nat → Int) (hd : Nat → HttpHeaders)
    (bd : Nat → Option String) (name url : String) (ms : Int) :
    mockRetryPolicySend
      ⟨fun k => .success (st k) (hd k) (bd k), fun _ => false, fun _ => false⟩
      [⟨name, fun _ => { retryAfterInMs := some ms }⟩] (some 3) url =
    (.ok ⟨st 2, hd 2, url, bd 2⟩, 3, 3) :=
  rfl

/-- C6 — if the cancellation signal is already triggered when an attempt
completes with either a Response or a captured `RestError`, the loop
terminates with an `AbortError` at once: no strategy is invoked (the strategy
counter is unchanged) and no further transport call happens (the transport
counter counts only the attempt that just completed). -/
theorem c6_abort_terminates (env : PolicyEnv)
    (strategies : List RetryStrategy) (maxRetries fuel retryCount t s : Nat)
    (url : String)
    (haborted : env.abortedAfterAttempt retryCount = true) :
    (retryCount = 0 →
      runLoop env strategies maxRetries (fuel + 1) retryCount url t s
        = (.thrown abortError, t, s)) ∧
    (∀ status headers bodyAsText, retryCount ≠ 0 →
      env.next t = .success status headers bodyAsText →
      runLoop env strategies maxRetries (fuel + 1) retryCount url t s
        = (.thrown abortError, t + 1, s)) ∧
    (∀ e, retryCount ≠ 0 → env.next t = .failure e → e.name = "RestError" →
      runLoop env strategies maxRetries (fuel + 1) retryCount url t s
        = (.thrown abortError, t + 1, s)) := by
  refine ⟨fun h0 => ?_,
    fun status headers bodyAsText hne hnext => ?_,
    fun e hne hnext hname => ?_⟩
  · subst h0
    simp only [runLoop]
    simp [haborted]
  · simp only [runLoop]
    simp [hne, hnext, haborted]
  · simp only [runLoop]
    simp [hne, hnext, hname, haborted]

/-- C6 — witness: the signal is triggered right after attempt 1 completes
with a 200 Response; the loop throws `AbortError` with one transport call
made and zero strategies invoked. -/
theorem c6_witness :
    runLoop ⟨fun _ => .success 200 ⟨[]⟩ none, fun k => k == 1, fun _ => false⟩
      [] 3 (2 + 1) 1 "https://a.example/chat" 0 0
      = (.thrown abortError, 0 + 1, 0) :=
  (c6_abort_terminates
    ⟨fun _ => .success 200 ⟨[]⟩ none, fun k => k == 1, fun _ => false⟩
    [] 3 2 1 0 0 "https://a.example/chat" rfl).2.1 200 ⟨[]⟩ none
    (by decide) rfl

/-- C7 — when the attempt count has reached the retry ceiling and the signal
is not aborted, the loop terminates without consulting any strategy (the
strategy counter is unchanged), with this precedence: a captured `RestError`
of the final attempt is thrown — even when it carries a response — otherwise
the final Response is returned. (The remaining arm of the source, the
internal "no outcome" `Error`, would require an attempt that produced neither
a response nor a captured error, which no completed attempt of this model
produces.) -/
theorem c7_ceiling_precedence (env : PolicyEnv)
    (strategies : List RetryStrategy) (maxRetries fuel retryCount t s : Nat)
    (url : String)
    (hceil : maxRetries ≤ retryCount)
    (hnoabort : env.abortedAfterAttempt retryCount = false) :
    (retryCount = 0 →
      runLoop env strategies maxRetries (fuel + 1) retryCount url t s
        = (.ok (mockResponse url), t, s)) ∧
    (∀ status headers bodyAsText, retryCount ≠ 0 →
      env.next t = .success status headers bodyAsText →
      runLoop env strategies maxRetries (fuel + 1) retryCount url t s
        = (.ok ⟨status, headers, url, bodyAsText⟩, t + 1, s)) ∧
    (∀ e, retryCount ≠ 0 → env.next t = .failure e → e.name = "RestError" →
      runLoop env strategies maxRetries (fuel + 1) retryCount url t s
        = (.thrown e, t + 1, s)) := by
  refine ⟨fun h0 => ?_,
    fun status headers bodyAsText hne hnext => ?_,
    fun e hne hnext hname => ?_⟩
  · subst h0
    simp only [runLoop]
    simp [hnoabort, hceil]
  · simp only [runLoop]
    simp [hne, hnext, hnoabort, hceil]
  · simp only [runLoop]
    simp [hne, hnext, hname, hnoabort, hceil]

/-- C7 — witness: at the ceiling (`maxRetries = 3`, `retryCount = 3`) a
`RestError` carrying a response is thrown in preference to returning that
response, with no strategy consulted. -/
theorem c7_witness :
    runLoop ⟨fun _ => .failure ⟨"RestError", "throttled",
        some ⟨503, ⟨[]⟩, "https://a.example/chat", none⟩⟩,
      fun _ => false, fun _ => false⟩
      [] 3 (0 + 1) 3 "https://a.example/chat" 5 7
      = (.thrown ⟨"RestError", "throttled",
          some ⟨503, ⟨[]⟩, "https://a.example/chat", none⟩⟩, 5 + 1, 7) :=
  (c7_ceiling_precedence
    ⟨fun _ => .failure ⟨"RestError", "throttled",
        some ⟨503, ⟨[]⟩, "https://a.example/chat", none⟩⟩,
      fun _ => false, fun _ => false⟩
    [] 3 0 3 5 7 "https://a.example/chat" (by decide) rfl).2.2
    ⟨"RestError", "throttled",
      some ⟨503, ⟨[]⟩, "https://a.example/chat", none⟩⟩
    (by decide) rfl rfl

/-- C10 — when the transport raises an error whose `name` is not
`"RestError"`, the policy rethrows it to the caller immediately: the theorem
imposes no condition on the abort signal or on the retry ceiling (both checks
are bypassed), no strategy is invoked (the strategy counter is unchanged),
and no further transport call occurs (the counter stops at this attempt's
call). -/
theorem c10_non_rest_error_rethrown (env : PolicyEnv)
    (strategies : List RetryStrategy) (maxRetries fuel retryCount t s : Nat)
    (url : String) (e : JsError)
    (hne : retryCount ≠ 0) (hnext : env.next t = .failure e)
    (hname : e.name ≠ "RestError") :
    runLoop env strategies maxRetries (fuel + 1) retryCount url t s
      = (.thrown e, t + 1, s) := by
  simp only [runLoop]
  simp [hne, hnext, hname]

/-- C10 — witness: the first real transport call (attempt 1) throws a
`TypeError`; the policy rethrows it with one transport call and no strategy
invocation, even though the retry ceiling is far away and a strategy is
configured. -/
theorem c10_witness :
    runLoop ⟨fun _ => .failure ⟨"TypeError", "boom", none⟩,
        fun _ => false, fun _ => false⟩
      [⟨"alwaysWaitTen", fun _ => { retryAfterInMs := some 10 }⟩]
      3 (2 + 1) 1 "https://a.example/chat" 0 0
      = (.thrown ⟨"TypeError", "boom", none⟩, 0 + 1, 0) :=
  c10_non_rest_error_rethrown
    ⟨fun _ => .failure ⟨"TypeError", "boom", none⟩,
      fun _ => false, fun _ => false⟩
    [⟨"alwaysWaitTen", fun _ => { retryAfterInMs := some 10 }⟩]
    3 2 1 0 0 "https://a.example/chat" ⟨"TypeError", "boom", none⟩
    (by decide) rfl (by decide)

end SmartFailover
